import Mathlib

/-!
Shallow embedding of the dual-dispatch indicator core of the `yata`
repository: the static `IndicatorConfig` capability
(`src/core/indicator/config.rs`) and the dynamic, type-erased adapter layer
(`src/core/indicator/dd.rs`).

Rust traits are embedded as explicit dictionaries of operations
(`ConfigOps`, `InstanceOps`) parameterised by the concrete Configuration
type `C`, the Instance state type `σ`, the candle type `T` and the
result-payload type `R` (all generic in the source as well).  A Rust method
taking `&mut self` is embedded state-passing style (it returns the new
receiver); a method taking `&self` leaves the receiver out of its result.
`Result<A, Error>` becomes `Except Error A`.  A slice index that can panic
is embedded through `Option`, with `none` standing for the panic.
-/

namespace Yata

/-- Modelled from the spec: the crate-level `Error` enum is not among the
given sources (only the two indicator trait files are); section 7 of the
spec fixes a closed taxonomy of `InvalidParameter`, `IncompatibleSeed` and
opaque indicator-specific domain errors. -/
inductive Error where
| invalidParameter
| incompatibleSeed
| other (msg : String)
deriving DecidableEq

/-- Dictionary for the external `IndicatorInstance` capability, as used by
this core (`next`, `size`, `name`; `over` is derived below).  `next` takes
`&mut self`, so it returns the produced result together with the updated
state. -/
structure InstanceOps (σ T R : Type) where
next : σ → T → R × σ
size : σ → Nat × Nat
name : σ → String

/-- Modelled from the spec: the body of `IndicatorInstance::over` lives
outside the given sources; section 8 of the spec states that the batch form
is element-wise equal to calling `next` repeatedly over the inputs in
order.  Returns the result sequence together with the final state. -/
def InstanceOps.overRun (ops : InstanceOps σ T R) : σ → List T → List R × σ
| s, [] => ([], s)
| s, c :: rest =>
  let rs := ops.next s c
  let tail := ops.overRun rs.2 rest
  (rs.1 :: tail.1, tail.2)

/-- Dictionary for the static `IndicatorConfig` capability
(`src/core/indicator/config.rs`): associated constant `NAME` and the
required methods `validate`, `set`, `size`, `init`, together with the
`Clone` bound required by the blanket impl in `dd.rs`.  `set` takes
`&mut self` and returns `Result<(), Error>`; state-passing style turns
that into `Except Error C`, the `ok` case carrying the updated
Configuration. -/
structure ConfigOps (C σ T R : Type) where
NAME : String
validate : C → Bool
set : C → String → String → Except Error C
size : C → Nat × Nat
init : C → T → Except Error σ
clone : C → C

/-- The provided method `IndicatorConfig::name`, which returns
`Self::NAME` (config.rs, lines 24-26). -/
def ConfigOps.name (ops : ConfigOps C σ T R) (_c : C) : String :=
  ops.NAME

/-- Faithful embedding of the provided method `IndicatorConfig::over`
(config.rs, lines 47-62), with the possibly-panicking slice index
`inputs_ref[0]` embedded through `List.get?`: the `none` result stands for
an out-of-bounds panic.  The body follows the source line by line: the
emptiness check, the index access, the `?` on `init`, then
`Ok(state.over(inputs))` over the whole input sequence. -/
def ConfigOps.overChecked (ops : ConfigOps C σ T R) (inst : InstanceOps σ T R)
    (c : C) (inputs : List T) : Option (Except Error (List R)) :=
  if inputs.isEmpty then some (Except.ok [])
  else
    match inputs.get? 0 with
    | none => none
    | some c0 =>
      match ops.init c c0 with
      | Except.error e => some (Except.error e)
      | Except.ok s => some (Except.ok (inst.overRun s inputs).1)

/-- The total form of `IndicatorConfig::over`: same computation with the
emptiness check and the index access fused into one match on the input
list.  `over_no_panic` below proves it equal to `overChecked`, so the
panic branch of the index is unreachable. -/
def ConfigOps.over (ops : ConfigOps C σ T R) (inst : InstanceOps σ T R)
    (c : C) : List T → Except Error (List R)
| [] => Except.ok []
| c0 :: rest =>
  match ops.init c c0 with
  | Except.error e => Except.error e
  | Except.ok s => Except.ok (inst.overRun s (c0 :: rest)).1

/-- Blanket `IndicatorConfigDyn::init` (dd.rs, lines 53-56): clones the
Configuration, delegates to the consuming static `init`, boxes the
Instance (boxing is the identity in the embedding). -/
def dynInit (ops : ConfigOps C σ T R) (c : C) (seed : T) : Except Error σ :=
  ops.init (ops.clone c) seed

/-- Blanket `IndicatorConfigDyn::over` (dd.rs, lines 58-60): clones the
Configuration and delegates to the static `IndicatorConfig::over`. -/
def dynOver (ops : ConfigOps C σ T R) (inst : InstanceOps σ T R)
    (c : C) (inputs : List T) : Except Error (List R) :=
  ConfigOps.over ops inst (ops.clone c) inputs

/-- Blanket `IndicatorConfigDyn::name` (dd.rs, lines 62-64): returns
`<Self as IndicatorConfig>::NAME`. -/
def dynName (ops : ConfigOps C σ T R) : String :=
  ops.NAME

/-- Blanket `IndicatorConfigDyn::validate` (dd.rs, lines 66-68). -/
def dynValidate (ops : ConfigOps C σ T R) (c : C) : Bool :=
  ops.validate c

/-- Blanket `IndicatorConfigDyn::set` (dd.rs, lines 70-72), state-passing
like the static `set`. -/
def dynSet (ops : ConfigOps C σ T R) (c : C) (n : String) (v : String) :
    Except Error C :=
  ops.set c n v

/-- Blanket `IndicatorConfigDyn::size` (dd.rs, lines 74-76). -/
def dynSize (ops : ConfigOps C σ T R) (c : C) : Nat × Nat :=
  ops.size c

/-- The dynamic `init` entry point as the caller observes it: `init` takes
the Configuration by shared borrow (`&self`), so the embedding of the call
returns the delegated result paired with the Configuration the caller
still holds afterwards. -/
def dynInitCall (ops : ConfigOps C σ T R) (c : C) (seed : T) :
    Except Error σ × C :=
  (dynInit ops c seed, c)

/-- The dynamic `over` entry point as the caller observes it (`&self`
receiver, same convention as `dynInitCall`). -/
def dynOverCall (ops : ConfigOps C σ T R) (inst : InstanceOps σ T R)
    (c : C) (inputs : List T) : Except Error (List R) × C :=
  (dynOver ops inst c inputs, c)

/-- Blanket `IndicatorInstanceDyn::next` (dd.rs, lines 124-126): direct
delegation to the static `IndicatorInstance::next`. -/
def dynInstNext (inst : InstanceOps σ T R) (s : σ) (c : T) : R × σ :=
  inst.next s c

/-- Blanket `IndicatorInstanceDyn::over` (dd.rs, lines 128-130): direct
delegation to the static `IndicatorInstance::over`; its result type is a
plain result list (no `Except`), so this layer cannot fail. -/
def dynInstOver (inst : InstanceOps σ T R) (s : σ) (inputs : List T) :
    List R × σ :=
  inst.overRun s inputs

/-- Calling `next` repeatedly on successive states over the inputs in
order, collecting the produced results.  This is the reference behaviour
the spec describes for the batch evaluation. -/
def nextSeq (inst : InstanceOps σ T R) : σ → List T → List R
| _, [] => []
| s, c :: rest =>
  let rs := inst.next s c
  rs.1 :: nextSeq inst rs.2 rest

/-- Modelled from the spec: concrete implementations of
`IndicatorConfig::init` are not among the given sources (config.rs only
declares the method); section 7 of the spec states that `init` raises
`InvalidParameter` when `validate` would have rejected the current
parameter set, and otherwise proceeds with the indicator-specific
construction `raw`. -/
def initImpl (ops : ConfigOps C σ T R) (raw : C → T → Except Error σ)
    (c : C) (seed : T) : Except Error σ :=
  if ops.validate c then raw c seed else Except.error Error.invalidParameter

/-- A concrete Configuration dictionary for witnesses, following the
concrete scenario of section 8 of the spec: a single integer parameter
`period`, valid exactly when positive; `init` seeds the state from the
first candle.  Candles, states and result payloads are all `Nat`. -/
def exConfigOps : ConfigOps Nat Nat Nat Nat where
  NAME := "example"
  validate := fun c => decide (0 < c)
  set := fun _c n v =>
    if n = "period" then
      match v.toNat? with
      | some k => if 0 < k then Except.ok k else Except.error Error.invalidParameter
      | none => Except.error Error.invalidParameter
    else Except.error Error.invalidParameter
  size := fun _ => (1, 1)
  init := fun c seed =>
    if 0 < c then Except.ok seed else Except.error Error.invalidParameter
  clone := fun c => c

/-- A concrete Instance dictionary for witnesses: the state accumulates
the candles seen, each step emits the running sum. -/
def exInstanceOps : InstanceOps Nat Nat Nat where
  next := fun s c => (s + c, s + c)
  size := fun _ => (1, 1)
  name := fun _ => "example"

lemma overRun_fst_eq_nextSeq (inst : InstanceOps σ T R) (s : σ) (l : List T) :
    (inst.overRun s l).1 = nextSeq inst s l := by
  induction l generalizing s with
  | nil => rfl
  | cons c rest ih =>
    simp [InstanceOps.overRun, nextSeq, ih]

lemma nextSeq_length (inst : InstanceOps σ T R) (s : σ) (l : List T) :
    (nextSeq inst s l).length = l.length := by
  induction l generalizing s with
  | nil => rfl
  | cons c rest ih =>
    simp [nextSeq, ih]

/-- C1: erasure parity.  For every concrete Configuration and every candle
sequence, the blanket `IndicatorConfigDyn::over` (which clones the
Configuration and delegates) returns a result identical to the static
`IndicatorConfig::over` on an equivalent Configuration (here: one the
clone reproduces exactly), both on success and on error. -/
theorem dyn_over_erasure_parity (ops : ConfigOps C σ T R)
    (inst : InstanceOps σ T R) (c : C) (inputs : List T)
    (hclone : ops.clone c = c) :
    dynOver ops inst c inputs = ConfigOps.over ops inst c inputs := by
  unfold dynOver
  rw [hclone]

/-- Witness for C1 at the concrete example dictionaries. -/
theorem dyn_over_erasure_parity_witness :
    dynOver exConfigOps exInstanceOps 3 [1, 2] =
      ConfigOps.over exConfigOps exInstanceOps 3 [1, 2] :=
  dyn_over_erasure_parity exConfigOps exInstanceOps 3 [1, 2] rfl

/-- C2: for a Configuration whose `init` succeeds on the first candle, the
static `over` on a non-empty sequence initialises the state from that
first candle and yields exactly the sequence obtained by calling `next`
repeatedly over the entire input (the first element included), one result
per candle. -/
theorem over_static_eq_repeated_next (ops : ConfigOps C σ T R)
    (inst : InstanceOps σ T R) (c : C) (c0 : T) (rest : List T) (s : σ)
    (h : ops.init c c0 = Except.ok s) :
    ConfigOps.over ops inst c (c0 :: rest) =
      Except.ok (nextSeq inst s (c0 :: rest)) ∧
    (nextSeq inst s (c0 :: rest)).length = (c0 :: rest).length := by
  constructor
  · simp [ConfigOps.over, h, overRun_fst_eq_nextSeq]
  · exact nextSeq_length inst s (c0 :: rest)

/-- Witness for C2 at the concrete example dictionaries. -/
theorem over_static_eq_repeated_next_witness :
    ConfigOps.over exConfigOps exInstanceOps 3 (5 :: [6, 7]) =
      Except.ok (nextSeq exInstanceOps 5 (5 :: [6, 7])) ∧
    (nextSeq exInstanceOps 5 (5 :: [6, 7])).length =
      ((5 : Nat) :: [6, 7]).length :=
  over_static_eq_repeated_next exConfigOps exInstanceOps 3 5 [6, 7] 5 rfl

/-- C3: the static `over` on an empty input returns an empty result
sequence, and `init` is never invoked in that call: the result is the
same under any replacement of the `init` operation. -/
theorem over_empty_no_init (ops : ConfigOps C σ T R)
    (inst : InstanceOps σ T R) (c : C) :
    ConfigOps.over ops inst c [] = Except.ok [] ∧
    ∀ f : C → T → Except Error σ,
      ConfigOps.over { ops with init := f } inst c [] = Except.ok [] :=
  ⟨rfl, fun _ => rfl⟩

/-- C4: if the internal `init` on the first candle fails with error `e`,
then both the static `over` and the blanket dynamic `over` return exactly
that error, with no partial result vector. -/
theorem over_propagates_init_error (ops : ConfigOps C σ T R)
    (inst : InstanceOps σ T R) (c : C) (c0 : T) (rest : List T) (e : Error)
    (hs : ops.init c c0 = Except.error e)
    (hd : ops.init (ops.clone c) c0 = Except.error e) :
    ConfigOps.over ops inst c (c0 :: rest) = Except.error e ∧
    dynOver ops inst c (c0 :: rest) = Except.error e := by
  constructor
  · simp [ConfigOps.over, hs]
  · simp [dynOver, ConfigOps.over, hd]

/-- Witness for C4: the example Configuration with `period = 0` fails
validation, so `init` errors and both layers surface it unchanged. -/
theorem over_propagates_init_error_witness :
    ConfigOps.over exConfigOps exInstanceOps 0 (7 :: [8]) =
      Except.error Error.invalidParameter ∧
    dynOver exConfigOps exInstanceOps 0 (7 :: [8]) =
      Except.error Error.invalidParameter :=
  over_propagates_init_error exConfigOps exInstanceOps 0 7 [8]
    Error.invalidParameter rfl rfl

/-- C5: the dynamic `init` and `over` take the Configuration by shared
borrow and clone it internally before delegating to the consuming static
methods, so the Configuration the caller holds after the call is the very
value it held before: the embedding of either call returns the receiver
unchanged, and the delegation consumes only the clone. -/
theorem dyn_calls_preserve_config (ops : ConfigOps C σ T R)
    (inst : InstanceOps σ T R) (c : C) (seed : T) (inputs : List T) :
    (dynInitCall ops c seed).2 = c ∧
    (dynOverCall ops inst c inputs).2 = c ∧
    dynInit ops c seed = ops.init (ops.clone c) seed ∧
    dynOver ops inst c inputs = ConfigOps.over ops inst (ops.clone c) inputs :=
  ⟨rfl, rfl, rfl, rfl⟩

/-- C6: for a Configuration rejected by `validate`, `init` fails with
`InvalidParameter` for every candidate seed (the indicator-specific
construction is never reached). -/
theorem init_rejects_invalid (ops : ConfigOps C σ T R)
    (raw : C → T → Except Error σ) (c : C) (seed : T)
    (h : ops.validate c = false) :
    initImpl ops raw c seed = Except.error Error.invalidParameter := by
  simp [initImpl, h]

/-- Witness for C6 at the concrete example dictionary with `period = 0`. -/
theorem init_rejects_invalid_witness :
    initImpl exConfigOps exConfigOps.init 0 9 =
      Except.error Error.invalidParameter :=
  init_rejects_invalid exConfigOps exConfigOps.init 0 9 rfl

/-- C7: the dynamic Instance adapter delegates `next` and `over` directly
to the underlying static Instance operations, with no duplication of the
state; the dynamic `over` returns a plain result list (its type carries no
error case, so this layer cannot fail). -/
theorem dyn_instance_delegates (inst : InstanceOps σ T R) (s : σ) (c : T)
    (inputs : List T) :
    dynInstNext inst s c = inst.next s c ∧
    dynInstOver inst s inputs = inst.overRun s inputs :=
  ⟨rfl, rfl⟩

/-- C8: the dynamic Configuration adapter passes `name`, `validate`, `set`
and `size` straight through: the dynamic name is the static `NAME`
constant (as is the static provided `name` method), and the dynamic
`validate`, `set` and `size` agree with the static operations on every
input. -/
theorem dyn_config_passthrough (ops : ConfigOps C σ T R) (c : C)
    (n : String) (v : String) :
    dynName ops = ops.NAME ∧
    ConfigOps.name ops c = ops.NAME ∧
    dynValidate ops c = ops.validate c ∧
    dynSet ops c n v = ops.set c n v ∧
    dynSize ops c = ops.size c :=
  ⟨rfl, rfl, rfl, rfl, rfl⟩

/-- C9: the static `over` on empty input returns an empty `Ok` result for
every Configuration, including one that fails validation, because the
early return precedes `init` and any validity check; it can never return
an error on empty input. -/
theorem over_empty_ok_invalid_config (ops : ConfigOps C σ T R)
    (inst : InstanceOps σ T R) (c : C) (h : ops.validate c = false) :
    ConfigOps.over ops inst c [] = Except.ok [] ∧
    ∀ e, ConfigOps.over ops inst c [] ≠ Except.error e := by
  refine ⟨rfl, ?_⟩
  intro e hcontra
  simp [ConfigOps.over] at hcontra

/-- Witness for C9 at the invalid example Configuration `period = 0`. -/
theorem over_empty_ok_invalid_config_witness :
    ConfigOps.over exConfigOps exInstanceOps 0 ([] : List Nat) =
      Except.ok [] ∧
    ∀ e, ConfigOps.over exConfigOps exInstanceOps 0 ([] : List Nat) ≠
      Except.error e :=
  over_empty_ok_invalid_config exConfigOps exInstanceOps 0 rfl

/-- C10: the index access `inputs_ref[0]` inside the static `over` is
always in bounds: the panic branch of the faithful embedding is
unreachable, so `overChecked` always returns a value, namely the total
`over`. -/
theorem over_index_in_bounds (ops : ConfigOps C σ T R)
    (inst : InstanceOps σ T R) (c : C) (inputs : List T) :
    ConfigOps.overChecked ops inst c inputs =
      some (ConfigOps.over ops inst c inputs) := by
  cases inputs with
  | nil => rfl
  | cons c0 rest =>
    cases h : ops.init c c0 <;>
      simp [ConfigOps.overChecked, ConfigOps.over, h]

end Yata
